import Mathlib

/-
Verification of the aggregation pipeline of the Legal Desk analytics
dashboard (src/main.py).

Embedding conventions:
- Timestamps are integers counting seconds since the Unix epoch
  (1970-01-01 00:00:00, a Thursday).  Lean's division and modulo on Int
  are Euclidean, which for the positive divisors used here coincides with
  the floor semantics of pandas timestamp arithmetic.
- Money amounts (unit_price, price, total_amount, item_revenue) are
  integers counting hundredths of a currency unit (cents), exactly
  representing the two-decimal prices of the store; the float values the
  program manipulates are modelled by the exact rational cents/100.
- A pandas DataFrame of fact rows is a List FactRow; row order is the order
  produced by the join.  Column projections are List.map, groupby keys
  are obtained with List.dedup (distinct values in order of first
  occurrence) sorted ascending as pandas groupby does, and nunique is the
  length of a deduplicated projection.
- The one fallible operation, calculate_kpis, returns Except: the Python
  code performs an unguarded integer division that raises
  ZeroDivisionError when the fact table has no customers.
-/

/-- Day index of a timestamp: days since the epoch, floored (pandas
floor semantics; Int division in Lean is Euclidean, equal to floor for
the positive divisor 86400). -/
def epochDay (ts : Int) : Int := ts / 86400

/-- Seconds elapsed since the midnight that starts the timestamp's day. -/
def secondOfDay (ts : Int) : Int := ts % 86400

/-- Weekday of a timestamp, Monday = 0 .. Sunday = 6, as pandas
Series.dt.dayofweek computes it.  The epoch day (1970-01-01) is a
Thursday, hence the offset 3. -/
def weekdayOffset (ts : Int) : Int := (epochDay ts + 3) % 7

/-- The week_start column of src/main.py line 56:
order_date minus dayofweek whole days.  The subtraction acts on the full
timestamp, so the time-of-day component is retained, not discarded. -/
def weekStart (ts : Int) : Int := ts - weekdayOffset ts * 86400

/-- Claim-side definition following the specification's words for the
Time Bucketer: the calendar date of the Monday on or before the
timestamp's date, with the time-of-day component discarded (midnight of
that Monday). -/
def weekStartSpec (ts : Int) : Int := (epochDay ts - weekdayOffset ts) * 86400

/-- Proleptic Gregorian calendar date (year, month, day) of an epoch day
index, via the standard era decomposition over 400-year cycles.  All the
inner divisions act on non-negative values. -/
def civilOfDay (z : Int) : Int × Int × Int :=
  let z' := z + 719468
  let era := z' / 146097
  let doe := z' % 146097
  let yoe := (doe - doe / 1460 + doe / 36524 - doe / 146096) / 365
  let y := yoe + era * 400
  let doy := doe - (365 * yoe + yoe / 4 - yoe / 100)
  let mp := (5 * doy + 2) / 153
  let d := doy - (153 * mp + 2) / 5 + 1
  let m := mp + (if mp < 10 then 3 else -9)
  (y + (if m ≤ 2 then 1 else 0), m, d)

/-- Epoch day index of a proleptic Gregorian calendar date, inverse of
civilOfDay. -/
def dayOfCivil (y m d : Int) : Int :=
  let y' := y - (if m ≤ 2 then 1 else 0)
  let era := y' / 400
  let yoe := y' - era * 400
  let mp := (m + 9) % 12
  let doy := (153 * mp + 2) / 5 + d - 1
  let doe := yoe * 365 + yoe / 4 - yoe / 100 + doy
  era * 146097 + doe - 719468

/-- The month_start column of src/main.py line 57: midnight on the first
day of the order timestamp's calendar month (pandas
to_period("M").to_timestamp()). -/
def monthStart (ts : Int) : Int :=
  let c := civilOfDay (epochDay ts)
  dayOfCivil c.1 c.2.1 1 * 86400

/-- Customers record set (table Customers). -/
structure Customer where
  customer_id : Nat
  first_name : String
  last_name : String
  registration_date : Int
deriving DecidableEq

/-- Orders record set (table Orders). -/
structure Order where
  order_id : Nat
  customer_id : Nat
  order_date : Int
  total_amount : Int
deriving DecidableEq

/-- Order line items (table Order_items); unit_price in cents. -/
structure OrderItem where
  order_id : Nat
  product_id : Nat
  quantity : Nat
  unit_price : Int
deriving DecidableEq

/-- Products record set (table Products). -/
structure Product where
  product_id : Nat
  product_name : String
  category : String
  price : Int
deriving DecidableEq

/-- One denormalized fact row, the column list of the SELECT in
load_data (src/main.py lines 27-46), with the computed
item_revenue = quantity * unit_price. -/
structure FactRow where
  customer_id : Nat
  first_name : String
  last_name : String
  registration_date : Int
  order_id : Nat
  order_date : Int
  total_amount : Int
  product_name : String
  category : String
  price : Int
  quantity : Nat
  unit_price : Int
  item_revenue : Int
deriving DecidableEq

/-- The derived week_start column of a fact row. -/
def FactRow.week_start (r : FactRow) : Int := weekStart r.order_date

/-- The derived month_start column of a fact row. -/
def FactRow.month_start (r : FactRow) : Int := monthStart r.order_date

/-- Assemble the joined row for one order item and its matching order,
customer and product, as the SELECT projects it. -/
def mkFact (c : Customer) (o : Order) (oi : OrderItem) (p : Product) : FactRow :=
  { customer_id := c.customer_id
    first_name := c.first_name
    last_name := c.last_name
    registration_date := c.registration_date
    order_id := o.order_id
    order_date := o.order_date
    total_amount := o.total_amount
    product_name := p.product_name
    category := p.category
    price := p.price
    quantity := oi.quantity
    unit_price := oi.unit_price
    item_revenue := (oi.quantity : Int) * oi.unit_price }

/-- The FactRow Builder: the three-way inner join of load_data
(src/main.py lines 42-45), one row per order item whose order, customer
and product all resolve; rows with dangling foreign keys are dropped. -/
def build (customers : List Customer) (orders : List Order)
    (orderItems : List OrderItem) (products : List Product) : List FactRow :=
  orderItems.flatMap fun oi =>
    (orders.filter fun o => o.order_id = oi.order_id).flatMap fun o =>
      (customers.filter fun c => c.customer_id = o.customer_id).flatMap fun c =>
        (products.filter fun p => p.product_id = oi.product_id).map fun p =>
          mkFact c o oi p

/-- pandas Series.nunique: the number of distinct values of a column. -/
def nunique {α : Type} [DecidableEq α] (l : List α) : Nat := l.dedup.length

/-- pandas DataFrame.head(n) for an Int argument n: the first n rows for
non-negative n, and all rows but the last |n| for negative n (Python
slice semantics). -/
def pyHead {α : Type} (l : List α) (n : Int) : List α :=
  if 0 ≤ n then l.take n.toNat else l.take (l.length - (-n).toNat)

/-- Streamlit slider widget (src/main.py line 152): whatever the user
manipulates, the returned value is clamped into the configured
[lo, hi] range; dflt is the initial position. -/
def st_slider (lo hi _dflt user : Int) : Int := max lo (min hi user)

/-- Insert an element into a list sorted by the Bool relation le, before
the first element it relates to. -/
def insertLe {α : Type} (le : α → α → Bool) (a : α) : List α → List α
  | [] => [a]
  | b :: l => if le a b then a :: b :: l else b :: insertLe le a l

/-- Insertion sort by a Bool relation; models the ascending key sort of
pandas groupby and the sort_values reordering (the claims checked here
do not depend on the order among tied elements). -/
def sortLe {α : Type} (le : α → α → Bool) : List α → List α
  | [] => []
  | a :: l => insertLe le a (sortLe le l)

/-- Strict lexicographic comparison of character lists by code point,
the order Python and pandas use on strings. -/
def lexLtChars : List Char → List Char → Bool
  | _, [] => false
  | [], _ :: _ => true
  | a :: as, b :: bs =>
      if a.val < b.val then true
      else if b.val < a.val then false
      else lexLtChars as bs

/-- Non-strict string comparison by code point. -/
def strLeB (a b : String) : Bool := !(lexLtChars b.toList a.toList)

/-- Ascending order on Int group keys, as a Bool relation for sorting. -/
def intLeB (a b : Int) : Bool := decide (a ≤ b)

/-- Lexicographic non-strict order on (product_name, category) pairs,
the MultiIndex order of a two-column pandas groupby. -/
def pairLeB (a b : String × String) : Bool :=
  if lexLtChars a.1.toList b.1.toList then true
  else if lexLtChars b.1.toList a.1.toList then false
  else strLeB a.2 b.2

/-- Distinct order identifiers of a fact table, in order of first
appearance. -/
def distinctOrderIds (facts : List FactRow) : List Nat :=
  (facts.map FactRow.order_id).dedup

/-- Sum of item_revenue (in cents) over the rows of one order: the
per-order group sum of the groupby in src/main.py line 65. -/
def orderRevenueCents (facts : List FactRow) (oid : Nat) : Int :=
  ((facts.filter fun r => r.order_id = oid).map FactRow.item_revenue).sum

/-- Row count (item count) of one order's group. -/
def orderSize (facts : List FactRow) (oid : Nat) : Nat :=
  (facts.filter fun r => r.order_id = oid).length

/-- The per-order revenue sums produced by
df.groupby('order_id')['item_revenue'].sum(), one entry per distinct
order. -/
def perOrderCents (facts : List FactRow) : List Int :=
  (distinctOrderIds facts).map (orderRevenueCents facts)

/-- The per-order row counts produced by df.groupby('order_id').size(). -/
def perOrderSizes (facts : List FactRow) : List Nat :=
  (distinctOrderIds facts).map (orderSize facts)

/-- Total item_revenue (in cents) over all fact rows. -/
def totalRevenueCents (facts : List FactRow) : Int :=
  (facts.map FactRow.item_revenue).sum

/-- The exact value of the per-order revenue of one order in currency
units, as a rational. -/
def orderRevenueQ (facts : List FactRow) (oid : Nat) : ℚ :=
  (orderRevenueCents facts oid : ℚ) / 100

/-- The exact value computed by
df.groupby('order_id')['item_revenue'].sum().mean(): the mean of the
per-order revenue sums, none on an empty table (pandas mean of an empty
series is NaN). -/
def avgOrderValueQ (facts : List FactRow) : Option ℚ :=
  if perOrderCents facts = [] then none
  else some ((((perOrderCents facts).sum : ℚ) / 100) / ((perOrderCents facts).length : ℚ))

/-- Round an exact fraction a / q (q positive) to the nearest integer,
ties to even: the rounding Python string formatting applies for the
".0f" and ".2f" format specifiers. -/
def divRoundHalfEven (a q : Int) : Int :=
  let f := a / q
  let r := a % q
  if 2 * r < q then f
  else if q < 2 * r then f + 1
  else if f % 2 = 0 then f else f + 1

/-- Insert a thousands separator after every third digit; the input is
the reversed digit list of a number. -/
def groupDigits : List Char → List Char
  | a :: b :: c :: d :: rest => a :: b :: c :: ',' :: groupDigits (d :: rest)
  | l => l

/-- Python format spec with a comma: the decimal digits of a natural
number with thousands separators. -/
def natCommas (n : Nat) : String :=
  String.mk ((groupDigits n.repr.toList.reverse).reverse)

/-- Signed integer rendering with thousands separators. -/
def intCommas (i : Int) : String :=
  (if i < 0 then "-" else "") ++ natCommas i.natAbs

/-- Two decimal digits, zero padded. -/
def pad2 (k : Nat) : String :=
  if k < 10 then "0" ++ Nat.repr k else Nat.repr k

/-- Integer part (with sign) of a value scaled by 100, for the ".2f"
rendering of n / 100. -/
def signedIntPart (n : Int) : String :=
  (if n < 0 then "-" else "") ++ Nat.repr (n.natAbs / 100)

/-- Fractional part of the ".2f" rendering of n / 100. -/
def fracPart2 (n : Int) : String := pad2 (n.natAbs % 100)

/-- Python f-string rendering of the fraction a / q with format ".2f":
round half to even at two decimals, no grouping. -/
def fmtFixed2 (a q : Int) : String :=
  signedIntPart (divRoundHalfEven (a * 100) q) ++ "." ++ fracPart2 (divRoundHalfEven (a * 100) q)

/-- The avg_order_value KPI string of src/main.py line 65: dollar sign,
then the per-order mean rounded to a whole unit ("nan" for an empty
table, as Python formats the NaN mean). -/
def avgOrderValueStr (facts : List FactRow) : String :=
  "$" ++ (if perOrderCents facts = [] then "nan"
          else intCommas (divRoundHalfEven (perOrderCents facts).sum (100 * ((perOrderCents facts).length : Int))))

/-- calculate_kpis (src/main.py lines 61-76).  The six KPI strings in
order: total customers, total orders, total revenue, average order
value, orders per customer, average items per order.  The
orders-per-customer line divides two Python ints; with zero distinct
customers (empty fact table) that raises ZeroDivisionError, modelled as
the error branch. -/
def calculate_kpis (facts : List FactRow) : Except String (List String) :=
  let total_customers := nunique (facts.map FactRow.customer_id)
  let total_orders := nunique (facts.map FactRow.order_id)
  let s1 := natCommas total_customers
  let s2 := natCommas total_orders
  let s3 := "$" ++ intCommas (divRoundHalfEven (totalRevenueCents facts) 100)
  let s4 := avgOrderValueStr facts
  if total_customers = 0 then Except.error "ZeroDivisionError"
  else
    let s5 := fmtFixed2 (total_orders : Int) (total_customers : Int)
    let s6 := fmtFixed2 ((perOrderSizes facts).sum : Int) ((perOrderSizes facts).length : Int)
    Except.ok [s1, s2, s3, s4, s5, s6]

/-- Time-series aggregate of src/main.py lines 117 and 135:
df.groupby(key)["order_id"].nunique(), one row per observed bucket
start, keys sorted ascending as pandas groupby sorts them, value the
count of distinct order identifiers in the bucket. -/
def ordersByPeriod (key : FactRow → Int) (facts : List FactRow) : List (Int × Nat) :=
  (sortLe intLeB (facts.map key).dedup).map fun k =>
    (k, nunique ((facts.filter fun r => key r = k).map FactRow.order_id))

/-- Weekly bucket key (the week_start column). -/
def weekKey (r : FactRow) : Int := r.week_start

/-- Monthly bucket key (the month_start column). -/
def monthKey (r : FactRow) : Int := r.month_start

/-- Descending order by distinct-order count for the product frequency
ranking (sort_values("orders", ascending=False)). -/
def countLeDesc (a b : String × Nat) : Bool := decide (b.2 ≤ a.2)

/-- Product frequency ranking of src/main.py line 154:
df.groupby("product_name")["order_id"].nunique() (keys sorted ascending
by pandas), then sorted descending by the distinct-order count. -/
def productFrequency (facts : List FactRow) : List (String × Nat) :=
  sortLe countLeDesc ((sortLe strLeB (facts.map FactRow.product_name).dedup).map fun p =>
    (p, nunique ((facts.filter fun r => r.product_name = p).map FactRow.order_id)))

/-- The truncated product frequency ranking, prod_freq.head(top_n) of
src/main.py line 155. -/
def productFrequencyTop (facts : List FactRow) (n : Int) : List (String × Nat) :=
  pyHead (productFrequency facts) n

/-- One row of the top-products-by-revenue aggregate. -/
structure ProdRev where
  product_name : String
  category : String
  item_revenue : Int
  quantity : Nat
deriving DecidableEq

/-- Descending order by total revenue
(sort_values("item_revenue", ascending=False)). -/
def revLeDesc (a b : ProdRev) : Bool := decide (b.item_revenue ≤ a.item_revenue)

/-- Revenue sum (cents) of one (product_name, category) group. -/
def groupRevenueCents (facts : List FactRow) (pc : String × String) : Int :=
  ((facts.filter fun r => r.product_name = pc.1 ∧ r.category = pc.2).map FactRow.item_revenue).sum

/-- Quantity sum of one (product_name, category) group. -/
def groupQuantity (facts : List FactRow) (pc : String × String) : Nat :=
  ((facts.filter fun r => r.product_name = pc.1 ∧ r.category = pc.2).map FactRow.quantity).sum

/-- The untruncated top-products-by-revenue aggregate of src/main.py
lines 231-234: groupby (product_name, category) with revenue and
quantity sums, sorted descending by revenue. -/
def topRevGroups (facts : List FactRow) : List ProdRev :=
  sortLe revLeDesc (((facts.map fun r => (r.product_name, r.category)).dedup).map fun pc =>
    { product_name := pc.1
      category := pc.2
      item_revenue := groupRevenueCents facts pc
      quantity := groupQuantity facts pc })

/-- The top-products aggregate truncated to the first n groups. -/
def topProductsByRevenueN (facts : List FactRow) (n : Int) : List ProdRev :=
  pyHead (topRevGroups facts) n

/-- The top-products-by-revenue output the insights page actually
renders: truncation fixed at .head(10) (src/main.py line 234), with no
caller-supplied parameter. -/
def topProductsByRevenue (facts : List FactRow) : List ProdRev :=
  topProductsByRevenueN facts 10

/-- Claim-side predicate: a string that renders a plain number, only
digits and a decimal point, with no currency symbol, separator or other
display formatting. -/
def plainNumeric (s : String) : Bool :=
  s.toList.all fun c => c.isDigit || c = '.'

/-- Concrete source snapshot realizing the specification's worked
scenario: one customer, one order placed 2024-03-04, two order items
(quantity 2 at 10.00 and quantity 1 at 5.00). -/
def scenarioCustomers : List Customer :=
  [{ customer_id := 1, first_name := "Ada", last_name := "Byron", registration_date := 0 }]

/-- The scenario's single order; 19786 is the epoch day of 2024-03-04. -/
def scenarioOrders : List Order :=
  [{ order_id := 1, customer_id := 1, order_date := 19786 * 86400, total_amount := 2500 }]

/-- The scenario's two order items (prices in cents). -/
def scenarioItems : List OrderItem :=
  [{ order_id := 1, product_id := 1, quantity := 2, unit_price := 1000 },
   { order_id := 1, product_id := 2, quantity := 1, unit_price := 500 }]

/-- The scenario's two products. -/
def scenarioProducts : List Product :=
  [{ product_id := 1, product_name := "ProductA", category := "Business", price := 1000 },
   { product_id := 2, product_name := "ProductB", category := "Personal", price := 500 }]

/-- The scenario's fact table, materialized by the join. -/
def scenarioFacts : List FactRow :=
  build scenarioCustomers scenarioOrders scenarioItems scenarioProducts

/-- Helper building a fact row directly, for concrete fact tables fed
to the Metric Engine. -/
def mkRow (cid oid : Nat) (ts : Int) (name cat : String) (qty : Nat) (priceCents : Int) : FactRow :=
  { customer_id := cid, first_name := "F", last_name := "L", registration_date := 0,
    order_id := oid, order_date := ts, total_amount := 0,
    product_name := name, category := cat, price := priceCents,
    quantity := qty, unit_price := priceCents, item_revenue := (qty : Int) * priceCents }

/-- A fact table with exactly three distinct products: Alpha in three
distinct orders, Beta in two, Gamma in one. -/
def facts3 : List FactRow :=
  [mkRow 1 1 0 "Alpha" "Business" 1 100,
   mkRow 1 2 0 "Alpha" "Business" 1 100,
   mkRow 2 3 0 "Alpha" "Business" 1 100,
   mkRow 1 1 0 "Beta" "Personal" 1 200,
   mkRow 1 2 0 "Beta" "Personal" 1 200,
   mkRow 1 1 0 "Gamma" "Personal" 1 300]

/-- A fact table with eleven distinct products (eleven distinct
(product_name, category) groups), revenues pairwise distinct. -/
def facts11 : List FactRow :=
  [mkRow 1 1 0 "P01" "Business" 1 1100,
   mkRow 1 2 0 "P02" "Personal" 1 1000,
   mkRow 1 3 0 "P03" "Business" 1 900,
   mkRow 1 4 0 "P04" "Personal" 1 800,
   mkRow 1 5 0 "P05" "Business" 1 700,
   mkRow 1 6 0 "P06" "Personal" 1 600,
   mkRow 1 7 0 "P07" "Business" 1 500,
   mkRow 1 8 0 "P08" "Personal" 1 400,
   mkRow 1 9 0 "P09" "Business" 1 300,
   mkRow 1 10 0 "P10" "Personal" 1 200,
   mkRow 1 11 0 "P11" "Business" 1 100]

/-- Source snapshot whose single order carries a timestamp with a
nonzero time-of-day component: 349200 s = Monday 1970-01-05, 01:00. -/
def cexCustomers : List Customer :=
  [{ customer_id := 7, first_name := "Bo", last_name := "Ek", registration_date := 0 }]

/-- The order timestamped Monday 01:00. -/
def cexOrders : List Order :=
  [{ order_id := 9, customer_id := 7, order_date := 349200, total_amount := 100 }]

/-- Its single order item. -/
def cexItems : List OrderItem :=
  [{ order_id := 9, product_id := 3, quantity := 1, unit_price := 100 }]

/-- Its product. -/
def cexProducts : List Product :=
  [{ product_id := 3, product_name := "Will", category := "Personal", price := 100 }]

example : weekdayOffset (19786 * 86400) = 0 := by decide
example : monthStart (19786 * 86400) = 19783 * 86400 := by decide
example : weekStart 349200 = 349200 := by decide
example : weekStartSpec 349200 = 345600 := by decide
example : scenarioFacts.length = 2 := by decide
example : calculate_kpis scenarioFacts =
    Except.ok ["1", "1", "$25", "$25", "1.00", "2.00"] := rfl
example : calculate_kpis [] = Except.error "ZeroDivisionError" := rfl
example : productFrequency facts3 = [("Alpha", 3), ("Beta", 2), ("Gamma", 1)] := by decide
example : (topRevGroups facts11).length = 11 := by decide
example : ordersByPeriod weekKey scenarioFacts = [(19786 * 86400, 1)] := by decide

theorem perm_insertLe {α : Type} (le : α → α → Bool) (a : α) (l : List α) :
    (insertLe le a l).Perm (a :: l) := by
  induction l with
  | nil => exact List.Perm.refl _
  | cons b l ih =>
    simp only [insertLe]
    split
    · exact List.Perm.refl _
    · exact (List.Perm.cons b ih).trans (List.Perm.swap a b l)

theorem perm_sortLe {α : Type} (le : α → α → Bool) (l : List α) :
    (sortLe le l).Perm l := by
  induction l with
  | nil => exact List.Perm.refl _
  | cons a l ih => exact (perm_insertLe le a (sortLe le l)).trans (List.Perm.cons a ih)

theorem mem_sortLe {α : Type} (le : α → α → Bool) (x : α) (l : List α) :
    x ∈ sortLe le l ↔ x ∈ l := (perm_sortLe le l).mem_iff

theorem length_sortLe {α : Type} (le : α → α → Bool) (l : List α) :
    (sortLe le l).length = l.length := (perm_sortLe le l).length_eq

theorem nodup_sortLe {α : Type} (le : α → α → Bool) {l : List α} (h : l.Nodup) :
    (sortLe le l).Nodup := ((perm_sortLe le l).nodup_iff).mpr h

theorem mem_insertLe {α : Type} (le : α → α → Bool) (a x : α) (l : List α) :
    x ∈ insertLe le a l ↔ x = a ∨ x ∈ l := by
  rw [(perm_insertLe le a l).mem_iff, List.mem_cons]

theorem pairwise_insertLe {α : Type} {le : α → α → Bool}
    (htot : ∀ a b, le a b = true ∨ le b a = true)
    (htrans : ∀ a b c, le a b = true → le b c = true → le a c = true)
    (a : α) {l : List α} (h : l.Pairwise fun x y => le x y = true) :
    (insertLe le a l).Pairwise fun x y => le x y = true := by
  induction l with
  | nil => simp [insertLe]
  | cons b l ih =>
    rw [List.pairwise_cons] at h
    obtain ⟨hb, hl⟩ := h
    by_cases hab : le a b = true
    · simp only [insertLe, if_pos hab]
      rw [List.pairwise_cons]
      refine ⟨?_, List.pairwise_cons.mpr ⟨hb, hl⟩⟩
      intro x hx
      rcases List.mem_cons.mp hx with rfl | hx
      · exact hab
      · exact htrans a b x hab (hb x hx)
    · simp only [insertLe, if_neg hab]
      rw [List.pairwise_cons]
      have hba : le b a = true := (htot a b).resolve_left hab
      refine ⟨?_, ih hl⟩
      intro x hx
      rcases (mem_insertLe le a x l).mp hx with rfl | hx
      · exact hba
      · exact hb x hx

theorem pairwise_sortLe {α : Type} {le : α → α → Bool}
    (htot : ∀ a b, le a b = true ∨ le b a = true)
    (htrans : ∀ a b c, le a b = true → le b c = true → le a c = true)
    (l : List α) : (sortLe le l).Pairwise fun x y => le x y = true := by
  induction l with
  | nil => exact List.Pairwise.nil
  | cons a l ih => exact pairwise_insertLe htot htrans a ih

theorem dedup_toFinset {α : Type} [DecidableEq α] (l : List α) :
    l.dedup.toFinset = l.toFinset := by
  ext a
  simp [List.mem_toFinset, List.mem_dedup]

theorem map_fst_pairs {α β : Type} (g : α → β) (l : List α) :
    (l.map fun k => (k, g k)).map Prod.fst = l := by
  induction l with
  | nil => rfl
  | cons a l ih => simp only [List.map_cons, ih]

theorem ordersByPeriod_keys (key : FactRow → Int) (facts : List FactRow) :
    (ordersByPeriod key facts).map Prod.fst = sortLe intLeB (facts.map key).dedup := by
  unfold ordersByPeriod
  exact map_fst_pairs _ _

/-- The contract of one time-series aggregate: its keys are exactly the
observed bucket starts (no synthesized zero-count periods), sorted
ascending with one entry per bucket, and each value is the count of
distinct order identifiers in that bucket. -/
def periodOK (key : FactRow → Int) (facts : List FactRow) : Prop :=
  (∀ k : Int, k ∈ (ordersByPeriod key facts).map Prod.fst ↔ ∃ r ∈ facts, key r = k)
  ∧ List.Sorted (fun a b : Int => a ≤ b) ((ordersByPeriod key facts).map Prod.fst)
  ∧ ((ordersByPeriod key facts).map Prod.fst).Nodup
  ∧ ∀ p ∈ ordersByPeriod key facts,
      p.2 = ((facts.filter fun r => key r = p.1).map FactRow.order_id).toFinset.card

theorem periodOK_all (key : FactRow → Int) (facts : List FactRow) : periodOK key facts := by
  refine ⟨?_, ?_, ?_, ?_⟩
  · intro k
    rw [ordersByPeriod_keys, mem_sortLe, List.mem_dedup, List.mem_map]
  · rw [ordersByPeriod_keys]
    refine List.Pairwise.imp ?_
      (@pairwise_sortLe Int intLeB ?_ ?_ (facts.map key).dedup)
    · intro a b h
      simpa [intLeB] using h
    · intro a b
      simpa [intLeB] using le_total a b
    · intro a b c
      simp only [intLeB, decide_eq_true_eq]
      exact le_trans
  · rw [ordersByPeriod_keys]
    exact nodup_sortLe _ (List.nodup_dedup _)
  · intro p hp
    simp only [ordersByPeriod, List.mem_map] at hp
    obtain ⟨k, -, rfl⟩ := hp
    simp only [nunique, List.card_toFinset]

/-- C5: for every fact table and for both calendar buckets (week and
month), ordersByPeriod has one entry per observed bucket start and no
others (no zero-count periods are synthesized), its keys are sorted
ascending, and each entry's value is the number of distinct order_id
values in that bucket, so an order with several items counts once. -/
theorem C5_orders_by_period (facts : List FactRow) :
    periodOK weekKey facts ∧ periodOK monthKey facts :=
  ⟨periodOK_all weekKey facts, periodOK_all monthKey facts⟩

/-- C5 instantiated at the scenario fact table. -/
theorem C5_orders_by_period_witness :
    periodOK weekKey scenarioFacts ∧ periodOK monthKey scenarioFacts :=
  C5_orders_by_period scenarioFacts

/-- C2 (amended): the week_start of every fact row is the order
timestamp shifted back by the weekday offset in whole days: its day is
the Monday on or before the order date (weekday 0) and the bracketing
invariant week_start ≤ order_date ≤ week_start + 6 days holds, but the
time-of-day component of the timestamp is retained, not discarded. -/
theorem C2_week_start_amended (r : FactRow) :
    epochDay r.week_start = epochDay r.order_date - weekdayOffset r.order_date
    ∧ weekdayOffset r.week_start = 0
    ∧ secondOfDay r.week_start = secondOfDay r.order_date
    ∧ r.week_start ≤ r.order_date
    ∧ r.order_date ≤ r.week_start + 6 * 86400 := by
  unfold FactRow.week_start weekStart weekdayOffset epochDay secondOfDay
  omega

/-- C2 counterexample: a fact table built from an order timestamped
Monday 1970-01-05 01:00 has a row whose week_start is not the claimed
midnight-of-Monday value: the code keeps the 01:00 time of day. -/
theorem C2_week_start_cex :
    ∃ r ∈ build cexCustomers cexOrders cexItems cexProducts,
      r.week_start ≠ weekStartSpec r.order_date := by decide

/-- C1: on the empty fact table the KPI computation does not return six
zeros; it raises ZeroDivisionError (total_orders / total_customers with
zero distinct customers), while the grouped query operations do return
empty results. -/
theorem C1_empty_input_behavior :
    calculate_kpis [] = Except.error "ZeroDivisionError"
    ∧ ordersByPeriod weekKey [] = []
    ∧ ordersByPeriod monthKey [] = []
    ∧ productFrequency [] = []
    ∧ topRevGroups [] = [] :=
  ⟨rfl, rfl, rfl, rfl, rfl⟩

theorem mem_build {cs : List Customer} {os : List Order} {ois : List OrderItem}
    {ps : List Product} {r : FactRow} :
    r ∈ build cs os ois ps ↔
      ∃ oi ∈ ois, ∃ o ∈ os, ∃ c ∈ cs, ∃ p ∈ ps,
        o.order_id = oi.order_id ∧ c.customer_id = o.customer_id
        ∧ p.product_id = oi.product_id ∧ r = mkFact c o oi p := by
  simp only [build, List.mem_flatMap, List.mem_filter, List.mem_map, decide_eq_true_eq]
  constructor
  · rintro ⟨oi, hoi, o, ⟨ho, hoid⟩, c, ⟨hc, hcid⟩, p, ⟨hp, hpid⟩, rfl⟩
    exact ⟨oi, hoi, o, ho, c, hc, p, hp, hoid, hcid, hpid, rfl⟩
  · rintro ⟨oi, hoi, o, ho, c, hc, p, hp, hoid, hcid, hpid, rfl⟩
    exact ⟨oi, hoi, o, ⟨ho, hoid⟩, c, ⟨hc, hcid⟩, p, ⟨hp, hpid⟩, rfl⟩

theorem build_week_functional {cs : List Customer} {os : List Order}
    {ois : List OrderItem} {ps : List Product}
    (h : (os.map Order.order_id).Nodup) :
    ∀ r ∈ build cs os ois ps, ∀ s ∈ build cs os ois ps,
      r.order_id = s.order_id → weekKey r = weekKey s := by
  intro r hr s hs hid
  obtain ⟨oi₁, -, o₁, ho₁, c₁, -, p₁, -, -, -, -, rfl⟩ := mem_build.mp hr
  obtain ⟨oi₂, -, o₂, ho₂, c₂, -, p₂, -, -, -, -, rfl⟩ := mem_build.mp hs
  simp only [mkFact] at hid
  have heq : o₁ = o₂ := List.inj_on_of_nodup_map h ho₁ ho₂ hid
  simp [weekKey, FactRow.week_start, mkFact, heq]

/-- The distinct order identifiers inside one week bucket of the weekly
groupby. -/
def weekBucketOrderIds (facts : List FactRow) (k : Int) : List Nat :=
  ((facts.filter fun r => weekKey r = k).map FactRow.order_id).dedup

/-- The observed week bucket starts of a fact table. -/
def weekKeys (facts : List FactRow) : List Int := (facts.map weekKey).dedup

/-- The partition property of the weekly buckets: the distinct order ids
of the buckets cover exactly the distinct order ids of the fact table,
and no order id occurs in two different buckets. -/
def weekPartition (facts : List FactRow) : Prop :=
  (∀ oid : Nat, oid ∈ (facts.map FactRow.order_id).dedup ↔
      ∃ k ∈ weekKeys facts, oid ∈ weekBucketOrderIds facts k)
  ∧ ∀ k₁ ∈ weekKeys facts, ∀ k₂ ∈ weekKeys facts, ∀ oid : Nat,
      oid ∈ weekBucketOrderIds facts k₁ → oid ∈ weekBucketOrderIds facts k₂ → k₁ = k₂

theorem weekPartition_of_functional {facts : List FactRow}
    (hf : ∀ r ∈ facts, ∀ s ∈ facts, r.order_id = s.order_id → weekKey r = weekKey s) :
    weekPartition facts := by
  constructor
  · intro oid
    simp only [weekKeys, weekBucketOrderIds, List.mem_dedup, List.mem_map,
      List.mem_filter, decide_eq_true_eq]
    constructor
    · rintro ⟨r, hr, rfl⟩
      exact ⟨weekKey r, ⟨r, hr, rfl⟩, r, ⟨hr, rfl⟩, rfl⟩
    · rintro ⟨k, -, r, ⟨hr, -⟩, rfl⟩
      exact ⟨r, hr, rfl⟩
  · intro k₁ hk₁ k₂ hk₂ oid h₁ h₂
    simp only [weekBucketOrderIds, List.mem_dedup, List.mem_map, List.mem_filter,
      decide_eq_true_eq] at h₁ h₂
    obtain ⟨r₁, ⟨hr₁, hw₁⟩, hid₁⟩ := h₁
    obtain ⟨r₂, ⟨hr₂, hw₂⟩, hid₂⟩ := h₂
    rw [← hw₁, ← hw₂]
    exact hf r₁ hr₁ r₂ hr₂ (hid₁.trans hid₂.symm)

/-- C4: for a fact table materialized by the join from sources whose
orders have pairwise distinct identifiers, the weekly buckets partition
the distinct order ids: their union is the set of distinct order ids of
the fact table and no order id is counted in two buckets. -/
theorem C4_week_buckets_partition (cs : List Customer) (os : List Order)
    (ois : List OrderItem) (ps : List Product)
    (h : (os.map Order.order_id).Nodup) :
    weekPartition (build cs os ois ps) :=
  weekPartition_of_functional (build_week_functional h)

/-- Two-order snapshot for exercising the weekly partition: the orders
fall on two consecutive Mondays and the first order has two items. -/
def wkOrders : List Order :=
  [{ order_id := 1, customer_id := 7, order_date := 4 * 86400, total_amount := 300 },
   { order_id := 2, customer_id := 7, order_date := 11 * 86400, total_amount := 100 }]

/-- Items of the two-order snapshot. -/
def wkItems : List OrderItem :=
  [{ order_id := 1, product_id := 3, quantity := 1, unit_price := 100 },
   { order_id := 1, product_id := 3, quantity := 2, unit_price := 100 },
   { order_id := 2, product_id := 3, quantity := 1, unit_price := 100 }]

/-- C4 applied to the two-order snapshot; the distinct-order-id
hypothesis is discharged by evaluation. -/
theorem C4_week_buckets_partition_witness :
    (wkOrders.map Order.order_id).Nodup
    ∧ weekPartition (build cexCustomers wkOrders wkItems cexProducts) :=
  ⟨by decide,
   C4_week_buckets_partition cexCustomers wkOrders wkItems cexProducts (by decide)⟩

example : (build cexCustomers wkOrders wkItems cexProducts).length = 3 := by decide
example : weekKeys (build cexCustomers wkOrders wkItems cexProducts) =
    [4 * 86400, 11 * 86400] := by decide

theorem pyHead_all {α : Type} (l : List α) (n : Int) (h : (l.length : Int) ≤ n) :
    pyHead l n = l := by
  unfold pyHead
  rw [if_pos (by omega : (0 : Int) ≤ n)]
  exact List.take_of_length_le (by omega)

theorem length_productFrequency (facts : List FactRow) :
    (productFrequency facts).length = (facts.map FactRow.product_name).toFinset.card := by
  rw [List.card_toFinset]
  unfold productFrequency
  rw [length_sortLe, List.length_map, length_sortLe]

theorem length_topRevGroups (facts : List FactRow) :
    (topRevGroups facts).length =
      (facts.map fun r => (r.product_name, r.category)).toFinset.card := by
  rw [List.card_toFinset]
  unfold topRevGroups
  rw [length_sortLe, List.length_map]

/-- The contract of the product frequency ranking: sorted descending by
distinct-order count, one entry per distinct product name (the entries
are a permutation of the distinct names), each count being the number of
distinct orders containing that product. -/
def rankingOK (facts : List FactRow) : Prop :=
  List.Sorted (fun a b : String × Nat => b.2 ≤ a.2) (productFrequency facts)
  ∧ (∀ p ∈ productFrequency facts,
      p.2 = ((facts.filter fun r => r.product_name = p.1).map FactRow.order_id).toFinset.card)
  ∧ ((productFrequency facts).map Prod.fst).Perm (facts.map FactRow.product_name).dedup

theorem rankingOK_all (facts : List FactRow) : rankingOK facts := by
  refine ⟨?_, ?_, ?_⟩
  · unfold productFrequency
    refine List.Pairwise.imp ?_ (@pairwise_sortLe (String × Nat) countLeDesc ?_ ?_ _)
    · intro a b h
      simpa [countLeDesc] using h
    · intro a b
      simpa [countLeDesc] using le_total b.2 a.2
    · intro a b c
      simp only [countLeDesc, decide_eq_true_eq]
      omega
  · intro p hp
    unfold productFrequency at hp
    rw [mem_sortLe, List.mem_map] at hp
    obtain ⟨q, -, rfl⟩ := hp
    simp only [nunique, List.card_toFinset]
  · unfold productFrequency
    have h1 := (perm_sortLe countLeDesc
      ((sortLe strLeB (facts.map FactRow.product_name).dedup).map fun p =>
        (p, nunique ((facts.filter fun r => r.product_name = p).map FactRow.order_id)))).map
      Prod.fst
    rw [map_fst_pairs] at h1
    exact h1.trans (perm_sortLe strLeB _)

/-- C6: the product frequency ranking is sorted descending by distinct
order count with one correctly counted entry per distinct product, and
whenever a truncation bound is at least the number of groups (as in the
specification's scenario of n = 100 against 3 distinct products) the
truncations of the frequency ranking and of the revenue ranking return
every group, with no padding and no failure. -/
theorem C6_ranking_truncation (facts : List FactRow) (n m : Int)
    (hn : ((productFrequency facts).length : Int) ≤ n)
    (hm : ((topRevGroups facts).length : Int) ≤ m) :
    rankingOK facts
    ∧ productFrequencyTop facts n = productFrequency facts
    ∧ (productFrequency facts).length = (facts.map FactRow.product_name).toFinset.card
    ∧ topProductsByRevenueN facts m = topRevGroups facts
    ∧ (topRevGroups facts).length =
        (facts.map fun r => (r.product_name, r.category)).toFinset.card :=
  ⟨rankingOK_all facts, pyHead_all _ n hn, length_productFrequency facts,
   pyHead_all _ m hm, length_topRevGroups facts⟩

/-- C6 at the three-product fact table with the scenario's bound
n = 100: all three groups come back. -/
theorem C6_ranking_truncation_witness :
    ((productFrequency facts3).length : Int) ≤ 100
    ∧ ((topRevGroups facts3).length : Int) ≤ 100
    ∧ (rankingOK facts3
      ∧ productFrequencyTop facts3 100 = productFrequency facts3
      ∧ (productFrequency facts3).length = (facts3.map FactRow.product_name).toFinset.card
      ∧ topProductsByRevenueN facts3 100 = topRevGroups facts3
      ∧ (topRevGroups facts3).length =
          (facts3.map fun r => (r.product_name, r.category)).toFinset.card) :=
  ⟨by decide, by decide, C6_ranking_truncation facts3 100 100 (by decide) (by decide)⟩

/-- C7 (amended): a non-positive top-N is not rejected; the truncated
rankings silently return pandas head(N) semantics, the empty ranking for
N = 0 and all but the last |N| entries for N < 0.  No InvalidArgument
condition exists in the code. -/
theorem C7_nonpositive_topn_amended (facts : List FactRow) (n : Int) (h : n ≤ 0) :
    productFrequencyTop facts n =
      (if n = 0 then []
       else (productFrequency facts).take ((productFrequency facts).length - (-n).toNat))
    ∧ topProductsByRevenueN facts n =
      (if n = 0 then []
       else (topRevGroups facts).take ((topRevGroups facts).length - (-n).toNat)) := by
  rcases eq_or_lt_of_le h with rfl | hlt
  · simp [productFrequencyTop, topProductsByRevenueN, pyHead]
  · have h0 : ¬ (0 : Int) ≤ n := by omega
    have hne : ¬ n = 0 := by omega
    simp only [productFrequencyTop, topProductsByRevenueN, pyHead, if_neg h0, if_neg hne]
    exact ⟨trivial, trivial⟩

/-- C7 counterexample: at the three-product table the truncated ranking
returns a defined result for N = 0 and N = -1 instead of failing. -/
theorem C7_nonpositive_topn_cex :
    productFrequencyTop facts3 0 = []
    ∧ productFrequencyTop facts3 (-1) = [("Alpha", 3), ("Beta", 2)] := by decide

/-- C7 amended theorem applied at N = -1. -/
theorem C7_nonpositive_topn_witness :
    (-1 : Int) ≤ 0
    ∧ (productFrequencyTop facts3 (-1) =
        (if (-1 : Int) = 0 then []
         else (productFrequency facts3).take
           ((productFrequency facts3).length - (-(-1) : Int).toNat))
      ∧ topProductsByRevenueN facts3 (-1) =
        (if (-1 : Int) = 0 then []
         else (topRevGroups facts3).take
           ((topRevGroups facts3).length - (-(-1) : Int).toNat))) :=
  ⟨by decide, C7_nonpositive_topn_amended facts3 (-1) (by decide)⟩

/-- C8 (amended): only the product-frequency truncation consumes the
caller-supplied top N; the top-products-by-revenue output is truncated
at the fixed constant 10 written in the insights page, for every fact
table and every caller value. -/
theorem C8_top_n_consumption_amended (facts : List FactRow) (n : Int) (h : 0 ≤ n) :
    topProductsByRevenue facts = topProductsByRevenueN facts 10
    ∧ (topProductsByRevenue facts).length =
        min 10 ((facts.map fun r => (r.product_name, r.category)).toFinset.card)
    ∧ (productFrequencyTop facts n).length =
        min n.toNat ((facts.map FactRow.product_name).toFinset.card) := by
  refine ⟨rfl, ?_, ?_⟩
  · rw [← length_topRevGroups]
    unfold topProductsByRevenue topProductsByRevenueN pyHead
    rw [if_pos (by omega : (0 : Int) ≤ 10), List.length_take]
    rfl
  · rw [← length_productFrequency]
    unfold productFrequencyTop pyHead
    rw [if_pos h, List.length_take]

/-- C8 counterexample: on a fact table with eleven distinct product
groups the rendered top-products output still has ten entries, while the
frequency truncation follows the caller's N (here the slider maximum
30): the revenue ranking does not vary with the caller's top N. -/
theorem C8_top_n_consumption_cex :
    (topProductsByRevenue facts11).length = 10
    ∧ (productFrequencyTop facts11 30).length = 11
    ∧ nunique (facts11.map fun r => (r.product_name, r.category)) = 11 := by decide

/-- C8 amended theorem applied at the three-product table and N = 2. -/
theorem C8_top_n_consumption_witness :
    (0 : Int) ≤ 2
    ∧ (topProductsByRevenue facts3 = topProductsByRevenueN facts3 10
      ∧ (topProductsByRevenue facts3).length =
          min 10 ((facts3.map fun r => (r.product_name, r.category)).toFinset.card)
      ∧ (productFrequencyTop facts3 2).length =
          min (2 : Int).toNat ((facts3.map FactRow.product_name).toFinset.card)) :=
  ⟨by decide, C8_top_n_consumption_amended facts3 2 (by decide)⟩

/-- C10: the top-N reaching the frequency truncation comes from a
slider bounded to [5, 30], so whatever the user does the truncation
receives a positive count, the nonpositive branch of head is
unreachable, and the truncation is a plain positive take. -/
theorem C10_slider_bounds (user : Int) (facts : List FactRow) :
    5 ≤ st_slider 5 30 10 user
    ∧ st_slider 5 30 10 user ≤ 30
    ∧ ¬ st_slider 5 30 10 user ≤ 0
    ∧ 0 < (st_slider 5 30 10 user).toNat
    ∧ productFrequencyTop facts (st_slider 5 30 10 user) =
        (productFrequency facts).take (st_slider 5 30 10 user).toNat := by
  have h5 : 5 ≤ st_slider 5 30 10 user := by unfold st_slider; omega
  have h30 : st_slider 5 30 10 user ≤ 30 := by unfold st_slider; omega
  refine ⟨h5, h30, by omega, by omega, ?_⟩
  unfold productFrequencyTop pyHead
  rw [if_pos (by omega : (0 : Int) ≤ st_slider 5 30 10 user)]

theorem perOrderCents_ne_nil {facts : List FactRow} (h : facts ≠ []) :
    perOrderCents facts ≠ [] := by
  unfold perOrderCents distinctOrderIds
  intro hc
  rw [List.map_eq_nil_iff, List.dedup_eq_nil, List.map_eq_nil_iff] at hc
  exact h hc

theorem perOrderCents_sum (facts : List FactRow) :
    (perOrderCents facts).sum =
      ∑ oid ∈ (facts.map FactRow.order_id).toFinset, orderRevenueCents facts oid := by
  unfold perOrderCents distinctOrderIds
  rw [← dedup_toFinset, List.sum_toFinset _ (List.nodup_dedup _)]

theorem perOrderCents_length (facts : List FactRow) :
    (perOrderCents facts).length = (facts.map FactRow.order_id).toFinset.card := by
  unfold perOrderCents distinctOrderIds
  rw [List.length_map, List.card_toFinset]

/-- C3: for a non-empty fact table the average order value is the
group-then-average quantity: the sum, over the distinct orders, of that
order's per-row revenue total, divided by the number of distinct orders;
and the KPI string displays exactly that ratio rounded to the nearest
whole currency unit (half to even). -/
theorem C3_avg_order_value (facts : List FactRow) (h : facts ≠ []) :
    avgOrderValueQ facts =
      some ((∑ oid ∈ (facts.map FactRow.order_id).toFinset, orderRevenueQ facts oid)
        / ((facts.map FactRow.order_id).toFinset.card : ℚ))
    ∧ avgOrderValueStr facts =
      "$" ++ intCommas (divRoundHalfEven
        (∑ oid ∈ (facts.map FactRow.order_id).toFinset, orderRevenueCents facts oid)
        (100 * ((facts.map FactRow.order_id).toFinset.card : Int))) := by
  have hne := perOrderCents_ne_nil h
  constructor
  · unfold avgOrderValueQ
    rw [if_neg hne, perOrderCents_sum, perOrderCents_length]
    have hq : (∑ oid ∈ (facts.map FactRow.order_id).toFinset, orderRevenueQ facts oid)
        = ((∑ oid ∈ (facts.map FactRow.order_id).toFinset,
            orderRevenueCents facts oid : Int) : ℚ) / 100 := by
      unfold orderRevenueQ
      rw [← Finset.sum_div]
      push_cast
      rfl
    rw [hq]
  · unfold avgOrderValueStr
    rw [if_neg hne, perOrderCents_sum, perOrderCents_length]

/-- C3 applied to the scenario fact table. -/
theorem C3_avg_order_value_witness :
    scenarioFacts ≠ []
    ∧ (avgOrderValueQ scenarioFacts =
        some ((∑ oid ∈ (scenarioFacts.map FactRow.order_id).toFinset,
            orderRevenueQ scenarioFacts oid)
          / ((scenarioFacts.map FactRow.order_id).toFinset.card : ℚ))
      ∧ avgOrderValueStr scenarioFacts =
        "$" ++ intCommas (divRoundHalfEven
          (∑ oid ∈ (scenarioFacts.map FactRow.order_id).toFinset,
            orderRevenueCents scenarioFacts oid)
          (100 * ((scenarioFacts.map FactRow.order_id).toFinset.card : Int)))) :=
  ⟨by decide, C3_avg_order_value scenarioFacts (by decide)⟩

/-- C9 counterexample: the KPI vector handed to the shell at the
scenario table is a vector of display-formatted strings; its revenue
entry carries a currency symbol and is not a plain numeric rendering. -/
theorem C9_plain_output_cex :
    calculate_kpis scenarioFacts = Except.ok ["1", "1", "$25", "$25", "1.00", "2.00"]
    ∧ plainNumeric "$25" = false :=
  ⟨rfl, rfl⟩

/-- C9 (amended): the grouped query results are plain structured values,
but the KPI vector is not: on every non-empty fact table calculate_kpis
succeeds with six strings in which the revenue entries carry a leading
currency symbol and the two ratio entries a fixed two-decimal
rendering. -/
theorem C9_formatted_kpis_amended (facts : List FactRow) (h : facts ≠ []) :
    ∃ a b c d e₁ e₂ f₁ f₂ : String,
      calculate_kpis facts =
        Except.ok [a, b, "$" ++ c, "$" ++ d, e₁ ++ "." ++ e₂, f₁ ++ "." ++ f₂] := by
  have htc : ¬ nunique (facts.map FactRow.customer_id) = 0 := by
    unfold nunique
    intro hlen
    rw [List.length_eq_zero, List.dedup_eq_nil, List.map_eq_nil_iff] at hlen
    exact h hlen
  refine ⟨natCommas (nunique (facts.map FactRow.customer_id)),
      natCommas (nunique (facts.map FactRow.order_id)),
      intCommas (divRoundHalfEven (totalRevenueCents facts) 100),
      (if perOrderCents facts = [] then "nan"
       else intCommas (divRoundHalfEven (perOrderCents facts).sum
         (100 * ((perOrderCents facts).length : Int)))),
      signedIntPart (divRoundHalfEven ((nunique (facts.map FactRow.order_id) : Int) * 100)
        (nunique (facts.map FactRow.customer_id) : Int)),
      fracPart2 (divRoundHalfEven ((nunique (facts.map FactRow.order_id) : Int) * 100)
        (nunique (facts.map FactRow.customer_id) : Int)),
      signedIntPart (divRoundHalfEven (((perOrderSizes facts).sum : Int) * 100)
        ((perOrderSizes facts).length : Int)),
      fracPart2 (divRoundHalfEven (((perOrderSizes facts).sum : Int) * 100)
        ((perOrderSizes facts).length : Int)), ?_⟩
  simp only [calculate_kpis, avgOrderValueStr, fmtFixed2, if_neg htc]

/-- C9 amended theorem applied at the scenario fact table. -/
theorem C9_formatted_kpis_witness :
    scenarioFacts ≠ []
    ∧ ∃ a b c d e₁ e₂ f₁ f₂ : String,
      calculate_kpis scenarioFacts =
        Except.ok [a, b, "$" ++ c, "$" ++ d, e₁ ++ "." ++ e₂, f₁ ++ "." ++ f₂] :=
  ⟨by decide, C9_formatted_kpis_amended scenarioFacts (by decide)⟩
